import Mathlib

/-!
Shallow embedding of the Sunrun API client
(`custom_components/sunrun/api.py`) and verification of the behavioural
properties of its authentication flow, endpoint clients and snapshot
aggregator (`get_latest_data`, `test_connection`).

Numbers from JSON bodies are modelled as rationals (`ℚ`); an `Option`
field models a JSON field that may be absent (the code reads such fields
with `dict.get`, which also maps an absent key to `None`).  Network I/O
is modelled by passing the server's behaviour — an `HttpAttempt`, either
a status/body response or a transport failure — as an explicit argument,
and each client reports how many network requests it issued so that
"fail fast without a network call" is statable.
-/

/-- The exception taxonomy of `api.py`: `SunrunAuthError` is declared as a
subclass of `SunrunApiError`, so a Python `except SunrunApiError` clause
catches both constructors, while `except SunrunAuthError` catches only
`authError`. -/
inductive SunrunError where
  | authError (msg : String)
  | apiError (msg : String)
deriving Repr, DecidableEq

/-- `True` exactly on the `authError` constructor, i.e. on the values a
Python `except SunrunAuthError` clause would catch. -/
def isAuthErr {α : Type} : Except SunrunError α → Bool
  | .error (.authError _) => true
  | _ => false

/-- The credential fields of `SunrunApi.__init__`: `self._access_token`
and `self._prospect_id`, each possibly `None`. -/
structure Session where
  access_token : Option String
  prospect_id : Option String
deriving Repr, DecidableEq

/-- Python truthiness of an optional string: `None` and `""` are falsy. -/
def pyTruthyStr : Option String → Bool
  | some s => s != ""
  | none => false

/-- The guard `if not self._access_token or not self._prospect_id` shared
by the three endpoint clients: proceed iff both credentials are truthy. -/
def authOk (sess : Session) : Bool :=
  pyTruthyStr sess.access_token && pyTruthyStr sess.prospect_id

/-- The server's behaviour for one request: an HTTP response with a
status code and an already-parsed JSON body of shape `β`, or a
transport-level failure (`aiohttp.ClientError`). -/
inductive HttpAttempt (β : Type) where
  | response (status : Nat) (body : β)
  | netError (msg : String)
deriving Repr, DecidableEq

/-- Result of one endpoint-client call: how many network requests were
issued (0 or 1) and the returned value or raised exception. -/
structure CallResult (α : Type) where
  networkRequests : Nat
  result : Except SunrunError α
deriving Repr

/-- One element of the minute-endpoint telemetry list.  Fields the code
reads with `latest.get(...)`: `solar`, `pvSolar`, `consumption`,
`exportReading`, `importReading`, `batterySolar`, `timestamp`. -/
structure TelemetryPoint where
  solar : Option ℚ := none
  pvSolar : Option ℚ := none
  consumption : Option ℚ := none
  exportReading : Option ℚ := none
  importReading : Option ℚ := none
  batterySolar : Option ℚ := none
  timestamp : Option String := none
deriving Repr, DecidableEq

/-- One element of the daily-cumulative list:
`{"timestamp": ..., "deliveredKwh": ..., "cumulativeKwh": ...}`. -/
structure DailyRecord where
  timestamp : Option String := none
  deliveredKwh : Option ℚ := none
  cumulativeKwh : Option ℚ := none
deriving Repr, DecidableEq

/-- The minute endpoint's 200 body: either a bare JSON list or an object
possibly wrapping the list under a `data` key (`data.get("data", [])`
yields `[]` when the key is absent). -/
inductive MinuteBody where
  | list (pts : List TelemetryPoint)
  | obj (data : Option (List TelemetryPoint))
deriving Repr, DecidableEq

/-- The cumulative endpoint's 200 body as seen by `get_latest_data`,
which checks `isinstance(cumulative_data, list)`: a JSON list of daily
records, or any non-list JSON value. -/
inductive CumulBody where
  | list (records : List DailyRecord)
  | nonList
deriving Repr, DecidableEq

/-- The offerings fields read by `get_latest_data`, including the
vendor's misspelt `weighted_avg_juy_shade` key for July. -/
structure Offerings where
  system_size : Option ℚ := none
  numPanels : Option ℚ := none
  system_azimuth : Option ℚ := none
  system_pitch : Option ℚ := none
  brightBox : Option Bool := none
  hasConsumption : Option Bool := none
  ptoDate : Option String := none
  lat : Option ℚ := none
  lon : Option ℚ := none
  weighted_avg_jan_shade : Option ℚ := none
  weighted_avg_feb_shade : Option ℚ := none
  weighted_avg_mar_shade : Option ℚ := none
  weighted_avg_apr_shade : Option ℚ := none
  weighted_avg_may_shade : Option ℚ := none
  weighted_avg_jun_shade : Option ℚ := none
  weighted_avg_juy_shade : Option ℚ := none
  weighted_avg_aug_shade : Option ℚ := none
  weighted_avg_sep_shade : Option ℚ := none
  weighted_avg_oct_shade : Option ℚ := none
  weighted_avg_nov_shade : Option ℚ := none
  weighted_avg_dec_shade : Option ℚ := none
deriving Repr, DecidableEq

/-- `MinuteBody` normalization at api.py line 278:
`data if isinstance(data, list) else data.get("data", [])`. -/
def normalizeMinuteBody : MinuteBody → List TelemetryPoint
  | .list pts => pts
  | .obj d => d.getD []

/-- `SunrunApi.get_cumulative_production` (api.py lines 178-237), with the
date-range formatting elided (it only shapes the query string): the
authentication guard, then the status mapping 200 → body, 401 →
`SunrunAuthError "Authentication expired"`, other → `SunrunApiError`;
a transport error maps to `SunrunApiError`. -/
def get_cumulative_production (sess : Session) (att : HttpAttempt CumulBody) :
    CallResult CumulBody :=
  if authOk sess then
    match att with
    | .netError m => ⟨1, .error (.apiError ("Network error: " ++ m))⟩
    | .response status body =>
        if status = 200 then ⟨1, .ok body⟩
        else if status = 401 then ⟨1, .error (.authError "Authentication expired")⟩
        else ⟨1, .error (.apiError ("Failed to get production data: " ++ toString status))⟩
  else ⟨0, .error (.authError "Not authenticated")⟩

/-- `SunrunApi.get_site_production_minute` (api.py lines 239-293): same
guard and status mapping as the cumulative client, with the 200 body
normalized from either response shape into a flat list. -/
def get_site_production_minute (sess : Session) (att : HttpAttempt MinuteBody) :
    CallResult (List TelemetryPoint) :=
  if authOk sess then
    match att with
    | .netError m => ⟨1, .error (.apiError ("Network error: " ++ m))⟩
    | .response status body =>
        if status = 200 then ⟨1, .ok (normalizeMinuteBody body)⟩
        else if status = 401 then ⟨1, .error (.authError "Authentication expired")⟩
        else ⟨1, .error (.apiError ("Failed to get production data: " ++ toString status))⟩
  else ⟨0, .error (.authError "Not authenticated")⟩

/-- `SunrunApi.get_product_offerings` (api.py lines 295-328).  The body is
`none` when the parsed JSON object is falsy (an empty dict), since
`get_latest_data` guards its use with `if offerings:`. -/
def get_product_offerings (sess : Session) (att : HttpAttempt (Option Offerings)) :
    CallResult (Option Offerings) :=
  if authOk sess then
    match att with
    | .netError m => ⟨1, .error (.apiError ("Network error: " ++ m))⟩
    | .response status body =>
        if status = 200 then ⟨1, .ok body⟩
        else if status = 401 then ⟨1, .error (.authError "Authentication expired")⟩
        else ⟨1, .error (.apiError ("Failed to get product offerings: " ++ toString status))⟩
  else ⟨0, .error (.authError "Not authenticated")⟩

/-- The challenge response body for `request_otp`.  The code reads only
the top-level `token` key; the nested `data.token` / `data.authToken`
locations are modelled so that the defensive-probing property of the
spec can be stated against the code. -/
structure OtpResponseBody where
  token : Option String := none
  dataToken : Option String := none
  dataAuthToken : Option String := none
deriving Repr, DecidableEq

/-- The OTP-flow state: `self._auth_token`, the pending exchange token. -/
structure OtpState where
  auth_token : Option String
deriving Repr, DecidableEq

/-- `SunrunApi.request_otp` (api.py lines 68-110).  On HTTP 200 it assigns
`self._auth_token = data.get("token")` (top level only) and returns
`True` iff that value is truthy; on any other status it raises
`SunrunAuthError`; a transport failure raises `SunrunApiError`. -/
def request_otp (st : OtpState) (att : HttpAttempt OtpResponseBody) :
    OtpState × Except SunrunError Bool :=
  match att with
  | .netError m => (st, .error (.apiError ("Network error: " ++ m)))
  | .response status body =>
      if status = 200 then
        let st2 : OtpState := ⟨body.token⟩
        if pyTruthyStr body.token then (st2, .ok true) else (st2, .ok false)
      else (st, .error (.authError ("Failed to request OTP: " ++ toString status)))

instance {ε α : Type} [DecidableEq ε] [DecidableEq α] : DecidableEq (Except ε α)
  | .error e, .error f =>
      if h : e = f then isTrue (by rw [h]) else isFalse (by intro hc; cases hc; exact h rfl)
  | .error _, .ok _ => isFalse (by intro h; cases h)
  | .ok _, .error _ => isFalse (by intro h; cases h)
  | .ok a, .ok b =>
      if h : a = b then isTrue (by rw [h]) else isFalse (by intro hc; cases hc; exact h rfl)

/-- The `result` dict built by `get_latest_data` (api.py lines 336-366);
every field starts as `None`. -/
structure Snapshot where
  current_power : Option ℚ := none
  daily_production : Option ℚ := none
  cumulative_production : Option ℚ := none
  consumption : Option ℚ := none
  grid_export : Option ℚ := none
  grid_import : Option ℚ := none
  battery_solar : Option ℚ := none
  last_update : Option String := none
  system_size : Option ℚ := none
  num_panels : Option ℤ := none
  system_azimuth : Option ℚ := none
  system_pitch : Option ℚ := none
  has_battery : Option Bool := none
  has_consumption : Option Bool := none
  pto_date : Option String := none
  latitude : Option ℚ := none
  longitude : Option ℚ := none
  sun_exposure_jan : Option ℚ := none
  sun_exposure_feb : Option ℚ := none
  sun_exposure_mar : Option ℚ := none
  sun_exposure_apr : Option ℚ := none
  sun_exposure_may : Option ℚ := none
  sun_exposure_jun : Option ℚ := none
  sun_exposure_jul : Option ℚ := none
  sun_exposure_aug : Option ℚ := none
  sun_exposure_sep : Option ℚ := none
  sun_exposure_oct : Option ℚ := none
  sun_exposure_nov : Option ℚ := none
  sun_exposure_dec : Option ℚ := none
deriving Repr, DecidableEq

/-- The with-all-fields-`None` dict `get_latest_data` starts from. -/
def emptySnapshot : Snapshot := {}

/-- Python `a or b` on optional numbers: `None` and `0` are falsy. -/
def pyOrNum (a b : Option ℚ) : Option ℚ :=
  match a with
  | some x => if x = 0 then b else some x
  | none => b

/-- Line 377: `solar = latest.get("solar") or latest.get("pvSolar") or 0`.
The trailing `or 0` makes the value total, so the `getD` default is never
reached. -/
def solarValue (p : TelemetryPoint) : ℚ :=
  (pyOrNum (pyOrNum p.solar p.pvSolar) (some 0)).getD 0

/-- The kW/W unit heuristic applied to every instantaneous reading:
`v * 1000 if v < 100 else v`. -/
def convertPower (v : ℚ) : ℚ :=
  if v < 100 then v * 1000 else v

/-- The minute-source contribution to the snapshot (api.py lines
369-396, inside the `try`): skip when the list is empty; otherwise read
the last element, convert the solar value unconditionally, convert each
of the four secondary readings only when present, and record the
point's timestamp. -/
def applyMinute (pts : List TelemetryPoint) (s : Snapshot) : Snapshot :=
  match pts.getLast? with
  | none => s
  | some latest =>
      { s with
        current_power := some (convertPower (solarValue latest))
        consumption :=
          match latest.consumption with
          | some v => some (convertPower v)
          | none => s.consumption
        grid_export :=
          match latest.exportReading with
          | some v => some (convertPower v)
          | none => s.grid_export
        grid_import :=
          match latest.importReading with
          | some v => some (convertPower v)
          | none => s.grid_import
        battery_solar :=
          match latest.batterySolar with
          | some v => some (convertPower v)
          | none => s.battery_solar
        last_update := latest.timestamp }

/-- Line 413: `record.get("timestamp", "")[:10] == today`. -/
def isTodayRecord (today : String) (r : DailyRecord) : Bool :=
  (r.timestamp.getD "").take 10 == today

/-- Python truthiness of a record dict (non-empty), restricted to the
modelled keys; used by `use_record = today_record if today_record else
latest_record` at line 419. -/
def recordTruthy (r : DailyRecord) : Bool :=
  r.timestamp.isSome || r.deliveredKwh.isSome || r.cumulativeKwh.isSome

/-- The cumulative-source contribution (api.py lines 401-423, inside the
`try`): skip unless the body is a non-empty list; otherwise scan for the
first record dated today (the loop breaks at the first match), fall back
to the last element, and emit that record's `deliveredKwh` and
`cumulativeKwh` unmodified. -/
def applyCumulative (body : CumulBody) (today : String) (s : Snapshot) : Snapshot :=
  match body with
  | .nonList => s
  | .list records =>
      match records.getLast? with
      | none => s
      | some latestRecord =>
          let todayRecord := records.find? (isTodayRecord today)
          let useRecord :=
            match todayRecord with
            | some r => if recordTruthy r then r else latestRecord
            | none => latestRecord
          { s with
            daily_production := useRecord.deliveredKwh
            cumulative_production := useRecord.cumulativeKwh }

/-- Python `int(float(v))`: truncation toward zero. -/
def pyInt (v : ℚ) : ℤ :=
  if v < 0 then ⌈v⌉ else ⌊v⌋

/-- Python `round(v, 1)` on an exact value: round half to even at one
decimal place. -/
def pyRound1 (v : ℚ) : ℚ :=
  let x := v * 10
  let f : ℤ := ⌊x⌋
  let r : ℚ := x - f
  let n : ℤ :=
    if r < 1 / 2 then f
    else if 1 / 2 < r then f + 1
    else if f % 2 = 0 then f else f + 1
  (n : ℚ) / 10

/-- The offerings-source contribution (api.py lines 429-465, inside the
`try`): skip when the dict is falsy; `system_size`, `ptoDate`, `lat`,
`lon` pass through (possibly `None`); `numPanels`, `system_azimuth`,
`system_pitch` are written only when truthy (so a present `0` is skipped
like an absent key); the capability flags default to `False`; each
monthly shade value is rounded to one decimal when present. -/
def applyOfferings (body : Option Offerings) (s : Snapshot) : Snapshot :=
  match body with
  | none => s
  | some o =>
      { s with
        system_size := o.system_size
        num_panels :=
          match o.numPanels with
          | some v => if v ≠ 0 then some (pyInt v) else s.num_panels
          | none => s.num_panels
        system_azimuth :=
          match o.system_azimuth with
          | some v => if v ≠ 0 then some (pyRound1 v) else s.system_azimuth
          | none => s.system_azimuth
        system_pitch :=
          match o.system_pitch with
          | some v => if v ≠ 0 then some (pyRound1 v) else s.system_pitch
          | none => s.system_pitch
        has_battery := some (o.brightBox.getD false)
        has_consumption := some (o.hasConsumption.getD false)
        pto_date := o.ptoDate
        latitude := o.lat
        longitude := o.lon
        sun_exposure_jan := (o.weighted_avg_jan_shade.map pyRound1).orElse fun _ => s.sun_exposure_jan
        sun_exposure_feb := (o.weighted_avg_feb_shade.map pyRound1).orElse fun _ => s.sun_exposure_feb
        sun_exposure_mar := (o.weighted_avg_mar_shade.map pyRound1).orElse fun _ => s.sun_exposure_mar
        sun_exposure_apr := (o.weighted_avg_apr_shade.map pyRound1).orElse fun _ => s.sun_exposure_apr
        sun_exposure_may := (o.weighted_avg_may_shade.map pyRound1).orElse fun _ => s.sun_exposure_may
        sun_exposure_jun := (o.weighted_avg_jun_shade.map pyRound1).orElse fun _ => s.sun_exposure_jun
        sun_exposure_jul := (o.weighted_avg_juy_shade.map pyRound1).orElse fun _ => s.sun_exposure_jul
        sun_exposure_aug := (o.weighted_avg_aug_shade.map pyRound1).orElse fun _ => s.sun_exposure_aug
        sun_exposure_sep := (o.weighted_avg_sep_shade.map pyRound1).orElse fun _ => s.sun_exposure_sep
        sun_exposure_oct := (o.weighted_avg_oct_shade.map pyRound1).orElse fun _ => s.sun_exposure_oct
        sun_exposure_nov := (o.weighted_avg_nov_shade.map pyRound1).orElse fun _ => s.sun_exposure_nov
        sun_exposure_dec := (o.weighted_avg_dec_shade.map pyRound1).orElse fun _ => s.sun_exposure_dec }

/-- The first `try ... except SunrunApiError` block of `get_latest_data`:
on success the minute data contributes, on any `SunrunError` — including
`authError`, because `SunrunAuthError` is a subclass of `SunrunApiError`
and so is caught by the same `except` clause — the snapshot passes
through unchanged. -/
def minuteStage (minuteRes : Except SunrunError (List TelemetryPoint)) (s : Snapshot) :
    Snapshot :=
  match minuteRes with
  | .ok pts => applyMinute pts s
  | .error _ => s

/-- The second `try ... except SunrunApiError` block of `get_latest_data`
(the cumulative fetch); again both error constructors are caught. -/
def cumulStage (cumulRes : Except SunrunError CumulBody) (today : String) (s : Snapshot) :
    Snapshot :=
  match cumulRes with
  | .ok body => applyCumulative body today s
  | .error _ => s

/-- The third `try ... except SunrunApiError` block of `get_latest_data`
(the offerings fetch); again both error constructors are caught. -/
def offerStage (offerRes : Except SunrunError (Option Offerings)) (s : Snapshot) :
    Snapshot :=
  match offerRes with
  | .ok body => applyOfferings body s
  | .error _ => s

/-- The body of `get_latest_data` after the three fetches have produced
their values-or-exceptions: the three guarded blocks run in sequence on
the initially all-`None` result dict. -/
def aggregate (minuteRes : Except SunrunError (List TelemetryPoint))
    (cumulRes : Except SunrunError CumulBody)
    (offerRes : Except SunrunError (Option Offerings)) (today : String) : Snapshot :=
  offerStage offerRes (cumulStage cumulRes today (minuteStage minuteRes emptySnapshot))

/-- `SunrunApi.get_latest_data` (api.py lines 330-470).  `today` is the
environment's `datetime.now().strftime("%Y-%m-%d")`.  The codomain is
`Except SunrunError Snapshot` so that "the function raises" is statable;
the `.ok` wrapper records that every exception the three fetches can
raise is caught by one of the `except SunrunApiError` clauses. -/
def get_latest_data (sess : Session) (today : String)
    (minuteAtt : HttpAttempt MinuteBody) (cumulAtt : HttpAttempt CumulBody)
    (offerAtt : HttpAttempt (Option Offerings)) : Except SunrunError Snapshot :=
  .ok (aggregate (get_site_production_minute sess minuteAtt).result
      (get_cumulative_production sess cumulAtt).result
      (get_product_offerings sess offerAtt).result today)

/-- `SunrunApi.test_connection` (api.py lines 472-485): the
`except SunrunAuthError` clause is listed before `except SunrunApiError`,
so only an auth error yields `False`. -/
def test_connection (sess : Session) (att : HttpAttempt CumulBody) : Bool :=
  match (get_cumulative_production sess att).result with
  | .ok _ => true
  | .error (.authError _) => false
  | .error (.apiError _) => true

/-- A concrete offerings body used to exercise the theorems below on
explicit inputs. -/
def sampleOfferings : Offerings :=
  { system_size := some (36 / 5)
    numPanels := some 18
    brightBox := some true
    ptoDate := some "2024-05-01"
    lat := some 38
    lon := some (-90) }

/-- A concrete daily record dated 2025-01-01. -/
def sampleDay1 : DailyRecord :=
  { timestamp := some "2025-01-01T08:00"
    deliveredKwh := some 7
    cumulativeKwh := some 95 }

/-- A concrete daily record dated 2025-01-02. -/
def sampleDay2 : DailyRecord :=
  { timestamp := some "2025-01-02T08:00"
    deliveredKwh := some 5
    cumulativeKwh := some 100 }

/-- A concrete telemetry point: small (kilowatt-scale) solar and export
readings, a large (watt-scale) import reading, no consumption. -/
def samplePoint : TelemetryPoint :=
  { solar := some 3
    exportReading := some 5
    importReading := some 150
    timestamp := some "2025-01-02T12:00" }

/-- A concrete telemetry point whose `solar` is present but zero while
`pvSolar` carries the reading. -/
def samplePointZeroSolar : TelemetryPoint :=
  { solar := some 0
    pvSolar := some 2
    timestamp := some "2025-01-02T12:01" }

/-! ### Helper lemmas -/

theorem mem_of_getLastEq {α : Type} {l : List α} {a : α} (h : l.getLast? = some a) :
    a ∈ l := by
  obtain ⟨hne, heq⟩ := List.mem_getLast?_eq_getLast (Option.mem_def.mpr h)
  rw [heq]
  exact List.getLast_mem hne

theorem applyCumulative_inst (body : CumulBody) (today : String) (s : Snapshot) :
    (applyCumulative body today s).current_power = s.current_power ∧
    (applyCumulative body today s).consumption = s.consumption ∧
    (applyCumulative body today s).grid_export = s.grid_export ∧
    (applyCumulative body today s).grid_import = s.grid_import ∧
    (applyCumulative body today s).battery_solar = s.battery_solar ∧
    (applyCumulative body today s).last_update = s.last_update := by
  cases body with
  | nonList => exact ⟨rfl, rfl, rfl, rfl, rfl, rfl⟩
  | list records =>
      simp only [applyCumulative]
      cases h : records.getLast? with
      | none => exact ⟨rfl, rfl, rfl, rfl, rfl, rfl⟩
      | some latestRecord => exact ⟨rfl, rfl, rfl, rfl, rfl, rfl⟩

theorem applyOfferings_inst (body : Option Offerings) (s : Snapshot) :
    (applyOfferings body s).current_power = s.current_power ∧
    (applyOfferings body s).consumption = s.consumption ∧
    (applyOfferings body s).grid_export = s.grid_export ∧
    (applyOfferings body s).grid_import = s.grid_import ∧
    (applyOfferings body s).battery_solar = s.battery_solar ∧
    (applyOfferings body s).last_update = s.last_update := by
  cases body with
  | none => exact ⟨rfl, rfl, rfl, rfl, rfl, rfl⟩
  | some o => exact ⟨rfl, rfl, rfl, rfl, rfl, rfl⟩

theorem applyOfferings_daily (body : Option Offerings) (s : Snapshot) :
    (applyOfferings body s).daily_production = s.daily_production ∧
    (applyOfferings body s).cumulative_production = s.cumulative_production := by
  cases body with
  | none => exact ⟨rfl, rfl⟩
  | some o => exact ⟨rfl, rfl⟩

theorem cumulStage_inst (cumulRes : Except SunrunError CumulBody) (today : String)
    (s : Snapshot) :
    (cumulStage cumulRes today s).current_power = s.current_power ∧
    (cumulStage cumulRes today s).consumption = s.consumption ∧
    (cumulStage cumulRes today s).grid_export = s.grid_export ∧
    (cumulStage cumulRes today s).grid_import = s.grid_import ∧
    (cumulStage cumulRes today s).battery_solar = s.battery_solar ∧
    (cumulStage cumulRes today s).last_update = s.last_update := by
  cases cumulRes with
  | error e => exact ⟨rfl, rfl, rfl, rfl, rfl, rfl⟩
  | ok body => exact applyCumulative_inst body today s

theorem offerStage_inst (offerRes : Except SunrunError (Option Offerings)) (s : Snapshot) :
    (offerStage offerRes s).current_power = s.current_power ∧
    (offerStage offerRes s).consumption = s.consumption ∧
    (offerStage offerRes s).grid_export = s.grid_export ∧
    (offerStage offerRes s).grid_import = s.grid_import ∧
    (offerStage offerRes s).battery_solar = s.battery_solar ∧
    (offerStage offerRes s).last_update = s.last_update := by
  cases offerRes with
  | error e => exact ⟨rfl, rfl, rfl, rfl, rfl, rfl⟩
  | ok body => exact applyOfferings_inst body s

theorem offerStage_daily (offerRes : Except SunrunError (Option Offerings)) (s : Snapshot) :
    (offerStage offerRes s).daily_production = s.daily_production ∧
    (offerStage offerRes s).cumulative_production = s.cumulative_production := by
  cases offerRes with
  | error e => exact ⟨rfl, rfl⟩
  | ok body => exact applyOfferings_daily body s

theorem minute_client_ok (sess : Session) (body : MinuteBody) (h : authOk sess = true) :
    (get_site_production_minute sess (.response 200 body)).result
      = .ok (normalizeMinuteBody body) := by
  simp [get_site_production_minute, h]

theorem cumul_client_ok (sess : Session) (body : CumulBody) (h : authOk sess = true) :
    (get_cumulative_production sess (.response 200 body)).result = .ok body := by
  simp [get_cumulative_production, h]

theorem offer_client_ok (sess : Session) (body : Option Offerings) (h : authOk sess = true) :
    (get_product_offerings sess (.response 200 body)).result = .ok body := by
  simp [get_product_offerings, h]

theorem applyMinute_fields (pts : List TelemetryPoint) (p : TelemetryPoint) (s : Snapshot)
    (hlast : pts.getLast? = some p) :
    (applyMinute pts s).current_power = some (convertPower (solarValue p)) ∧
    (applyMinute pts s).consumption
      = (match p.consumption with | some v => some (convertPower v) | none => s.consumption) ∧
    (applyMinute pts s).grid_export
      = (match p.exportReading with | some v => some (convertPower v) | none => s.grid_export) ∧
    (applyMinute pts s).grid_import
      = (match p.importReading with | some v => some (convertPower v) | none => s.grid_import) ∧
    (applyMinute pts s).battery_solar
      = (match p.batterySolar with | some v => some (convertPower v) | none => s.battery_solar) ∧
    (applyMinute pts s).last_update = p.timestamp := by
  unfold applyMinute
  cases hl : pts.getLast? with
  | none => rw [hl] at hlast; cases hlast
  | some q =>
      rw [hl] at hlast
      injection hlast with hqp
      subst hqp
      exact ⟨rfl, rfl, rfl, rfl, rfl, rfl⟩

theorem recordTruthy_of_isToday (today : String) (r : DailyRecord)
    (hne : today ≠ "") (h : isTodayRecord today r = true) :
    recordTruthy r = true := by
  unfold isTodayRecord at h
  cases htt : r.timestamp with
  | some t => simp [recordTruthy, htt]
  | none =>
      rw [htt] at h
      simp only [Option.getD_none] at h
      have hempty : ("" : String).take 10 = "" := by decide
      rw [hempty] at h
      exact absurd (eq_of_beq h).symm hne

theorem applyCumulative_daily_some (records : List DailyRecord) (today : String)
    (s : Snapshot) (r : DailyRecord)
    (hne : records ≠ [])
    (hf : records.find? (isTodayRecord today) = some r)
    (ht : recordTruthy r = true) :
    (applyCumulative (.list records) today s).daily_production = r.deliveredKwh ∧
    (applyCumulative (.list records) today s).cumulative_production = r.cumulativeKwh := by
  simp only [applyCumulative]
  cases hl : records.getLast? with
  | none => exact absurd (List.getLast?_eq_none_iff.mp hl) hne
  | some q =>
      simp only [hf]
      simp [ht]

theorem applyCumulative_daily_someFalsy (records : List DailyRecord) (today : String)
    (s : Snapshot) (lastRec : DailyRecord) (r : DailyRecord)
    (hlast : records.getLast? = some lastRec)
    (hf : records.find? (isTodayRecord today) = some r)
    (ht : recordTruthy r = false) :
    (applyCumulative (.list records) today s).daily_production = lastRec.deliveredKwh ∧
    (applyCumulative (.list records) today s).cumulative_production = lastRec.cumulativeKwh := by
  simp only [applyCumulative]
  cases hl : records.getLast? with
  | none => rw [hl] at hlast; cases hlast
  | some q =>
      rw [hl] at hlast
      injection hlast with hq
      subst hq
      simp only [hf]
      simp [ht]

theorem applyCumulative_daily_none (records : List DailyRecord) (today : String)
    (s : Snapshot) (lastRec : DailyRecord)
    (hlast : records.getLast? = some lastRec)
    (hf : records.find? (isTodayRecord today) = none) :
    (applyCumulative (.list records) today s).daily_production = lastRec.deliveredKwh ∧
    (applyCumulative (.list records) today s).cumulative_production = lastRec.cumulativeKwh := by
  simp only [applyCumulative]
  cases hl : records.getLast? with
  | none => rw [hl] at hlast; cases hlast
  | some q =>
      rw [hl] at hlast
      injection hlast with hq
      subst hq
      simp [hf]

/-- The daily fields of the full aggregation, when the cumulative fetch
succeeds with a non-empty list, come from the first today-dated record
when one exists (and is truthy), else from the last list element. -/
theorem aggregate_daily_mem (mRes : Except SunrunError (List TelemetryPoint))
    (oRes : Except SunrunError (Option Offerings))
    (records : List DailyRecord) (today : String) (lastRec : DailyRecord)
    (hlast : records.getLast? = some lastRec) :
    ∃ r, r ∈ records ∧
      (aggregate mRes (.ok (.list records)) oRes today).daily_production = r.deliveredKwh ∧
      (aggregate mRes (.ok (.list records)) oRes today).cumulative_production
        = r.cumulativeKwh := by
  have hne : records ≠ [] := by
    intro hcon
    rw [hcon] at hlast
    cases hlast
  have ho := offerStage_daily oRes
    (cumulStage (.ok (.list records)) today (minuteStage mRes emptySnapshot))
  cases hf : records.find? (isTodayRecord today) with
  | none =>
      have hc := applyCumulative_daily_none records today
        (minuteStage mRes emptySnapshot) lastRec hlast hf
      exact ⟨lastRec, mem_of_getLastEq hlast,
        by unfold aggregate; rw [ho.1]; exact hc.1,
        by unfold aggregate; rw [ho.2]; exact hc.2⟩
  | some r =>
      cases ht : recordTruthy r with
      | true =>
          have hc := applyCumulative_daily_some records today
            (minuteStage mRes emptySnapshot) r hne hf ht
          exact ⟨r, List.mem_of_find?_eq_some hf,
            by unfold aggregate; rw [ho.1]; exact hc.1,
            by unfold aggregate; rw [ho.2]; exact hc.2⟩
      | false =>
          have hc := applyCumulative_daily_someFalsy records today
            (minuteStage mRes emptySnapshot) lastRec r hlast hf ht
          exact ⟨lastRec, mem_of_getLastEq hlast,
            by unfold aggregate; rw [ho.1]; exact hc.1,
            by unfold aggregate; rw [ho.2]; exact hc.2⟩

/-- Core computation of the minute-success path of `get_latest_data`:
the instantaneous fields of the final snapshot come from the last
telemetry point, whatever the other two endpoints returned. -/
theorem aggregate_minute_ok (pts : List TelemetryPoint) (p : TelemetryPoint)
    (cumulRes : Except SunrunError CumulBody)
    (offerRes : Except SunrunError (Option Offerings)) (today : String)
    (hlast : pts.getLast? = some p) :
    (aggregate (.ok pts) cumulRes offerRes today).current_power
      = some (convertPower (solarValue p)) ∧
    (aggregate (.ok pts) cumulRes offerRes today).consumption
      = p.consumption.map convertPower ∧
    (aggregate (.ok pts) cumulRes offerRes today).grid_export
      = p.exportReading.map convertPower ∧
    (aggregate (.ok pts) cumulRes offerRes today).grid_import
      = p.importReading.map convertPower ∧
    (aggregate (.ok pts) cumulRes offerRes today).battery_solar
      = p.batterySolar.map convertPower ∧
    (aggregate (.ok pts) cumulRes offerRes today).last_update = p.timestamp := by
  have hos := offerStage_inst offerRes
    (cumulStage cumulRes today (minuteStage (.ok pts) emptySnapshot))
  have hcs := cumulStage_inst cumulRes today (minuteStage (.ok pts) emptySnapshot)
  have hm := applyMinute_fields pts p emptySnapshot hlast
  have hms : minuteStage (.ok pts) emptySnapshot = applyMinute pts emptySnapshot := rfl
  unfold aggregate
  refine ⟨?_, ?_, ?_, ?_, ?_, ?_⟩
  · rw [hos.1, hcs.1, hms]
    exact hm.1
  · rw [hos.2.1, hcs.2.1, hms, hm.2.1]
    cases p.consumption <;> rfl
  · rw [hos.2.2.1, hcs.2.2.1, hms, hm.2.2.1]
    cases p.exportReading <;> rfl
  · rw [hos.2.2.2.1, hcs.2.2.2.1, hms, hm.2.2.2.1]
    cases p.importReading <;> rfl
  · rw [hos.2.2.2.2.1, hcs.2.2.2.2.1, hms, hm.2.2.2.2.1]
    cases p.batterySolar <;> rfl
  · rw [hos.2.2.2.2.2, hcs.2.2.2.2.2, hms]
    exact hm.2.2.2.2.2

/-! ### Claim theorems -/

/-- C1: the spec claims that an AuthError raised by any of the three
endpoint fetches propagates out of `get_latest_data()` and is not
swallowed into a partial Snapshot.  The code violates this:
`SunrunAuthError` is a subclass of `SunrunApiError`, and each fetch is
wrapped in `except SunrunApiError`, which therefore also catches the
auth error.  Evaluation at a failing input: with valid credentials and
all three endpoints answering HTTP 401 — so each fetch raises
`SunrunAuthError "Authentication expired"`, as the first three conjuncts
record — `get_latest_data` nevertheless returns the all-null snapshot
instead of letting the AuthError escape. -/
theorem get_latest_data_swallows_authError :
    isAuthErr (get_site_production_minute ⟨some "tok", some "pid"⟩
        (.response 401 (.list []))).result = true
    ∧ isAuthErr (get_cumulative_production ⟨some "tok", some "pid"⟩
        (.response 401 .nonList)).result = true
    ∧ isAuthErr (get_product_offerings ⟨some "tok", some "pid"⟩
        (.response 401 none)).result = true
    ∧ get_latest_data ⟨some "tok", some "pid"⟩ "2025-10-12"
        (.response 401 (.list [])) (.response 401 .nonList) (.response 401 none)
      = .ok emptySnapshot := by
  refine ⟨rfl, rfl, rfl, ?_⟩
  decide

/-- C2: when the minute fetch fails with a (non-auth) ApiError while the
daily-cumulative and offerings fetches succeed, `get_latest_data` does
not raise; the returned snapshot has null instantaneous-power fields and
its daily/cumulative and system-profile fields are populated from the
two successful sources. -/
theorem get_latest_data_minute_failure_independent
    (sess : Session) (today : String) (minuteAtt : HttpAttempt MinuteBody)
    (records : List DailyRecord) (lastRec : DailyRecord) (o : Offerings)
    (hauth : authOk sess = true)
    (hmin : ∃ m, (get_site_production_minute sess minuteAtt).result
        = .error (.apiError m))
    (hlast : records.getLast? = some lastRec) :
    ∃ snap,
      get_latest_data sess today minuteAtt (.response 200 (.list records))
          (.response 200 (some o)) = .ok snap
      ∧ snap.current_power = none ∧ snap.consumption = none
      ∧ snap.grid_export = none ∧ snap.grid_import = none
      ∧ snap.battery_solar = none ∧ snap.last_update = none
      ∧ (∃ r, r ∈ records ∧ snap.daily_production = r.deliveredKwh
          ∧ snap.cumulative_production = r.cumulativeKwh)
      ∧ snap.system_size = o.system_size
      ∧ snap.has_battery = some (o.brightBox.getD false)
      ∧ snap.has_consumption = some (o.hasConsumption.getD false)
      ∧ snap.pto_date = o.ptoDate
      ∧ snap.latitude = o.lat
      ∧ snap.longitude = o.lon := by
  obtain ⟨m, hm⟩ := hmin
  have hc := cumul_client_ok sess (.list records) hauth
  have ho := offer_client_ok sess (some o) hauth
  unfold get_latest_data
  rw [hm, hc, ho]
  refine ⟨_, rfl, ?_, ?_, ?_, ?_, ?_, ?_, ?_, rfl, rfl, rfl, rfl, rfl, rfl⟩
  · exact (applyCumulative_inst (.list records) today emptySnapshot).1
  · exact (applyCumulative_inst (.list records) today emptySnapshot).2.1
  · exact (applyCumulative_inst (.list records) today emptySnapshot).2.2.1
  · exact (applyCumulative_inst (.list records) today emptySnapshot).2.2.2.1
  · exact (applyCumulative_inst (.list records) today emptySnapshot).2.2.2.2.1
  · exact (applyCumulative_inst (.list records) today emptySnapshot).2.2.2.2.2
  · exact aggregate_daily_mem (.error (.apiError m)) (.ok (some o))
      records today lastRec hlast

theorem get_latest_data_minute_failure_independent_witness :
    ∃ snap,
      get_latest_data ⟨some "tok", some "pid"⟩ "2025-01-01"
          (.response 500 (.list []))
          (.response 200 (.list [sampleDay1]))
          (.response 200 (some sampleOfferings)) = .ok snap
      ∧ snap.current_power = none ∧ snap.consumption = none
      ∧ snap.grid_export = none ∧ snap.grid_import = none
      ∧ snap.battery_solar = none ∧ snap.last_update = none
      ∧ (∃ r, r ∈ [sampleDay1]
          ∧ snap.daily_production = r.deliveredKwh
          ∧ snap.cumulative_production = r.cumulativeKwh)
      ∧ snap.system_size = sampleOfferings.system_size
      ∧ snap.has_battery = some (sampleOfferings.brightBox.getD false)
      ∧ snap.has_consumption = some (sampleOfferings.hasConsumption.getD false)
      ∧ snap.pto_date = sampleOfferings.ptoDate
      ∧ snap.latitude = sampleOfferings.lat
      ∧ snap.longitude = sampleOfferings.lon :=
  get_latest_data_minute_failure_independent ⟨some "tok", some "pid"⟩ "2025-01-01"
    (.response 500 (.list [])) [sampleDay1] sampleDay1
    sampleOfferings (by decide)
    ⟨"Failed to get production data: " ++ toString 500, by decide⟩ (by decide)

/-- C4: when the cumulative fetch succeeds with a non-empty list,
`get_latest_data` emits the `deliveredKwh`/`cumulativeKwh` of the first
record whose timestamp's first 10 characters equal today's date when one
exists — wherever it sits in the list — and of the last list element
when no record matches. -/
theorem get_latest_data_daily_selection
    (sess : Session) (today : String)
    (minuteAtt : HttpAttempt MinuteBody) (offerAtt : HttpAttempt (Option Offerings))
    (records : List DailyRecord) (lastRec : DailyRecord)
    (hauth : authOk sess = true) (hne : today ≠ "")
    (hlast : records.getLast? = some lastRec) :
    ∃ snap,
      get_latest_data sess today minuteAtt (.response 200 (.list records)) offerAtt
          = .ok snap
      ∧ (∀ r, records.find? (isTodayRecord today) = some r →
          isTodayRecord today r = true
          ∧ snap.daily_production = r.deliveredKwh
          ∧ snap.cumulative_production = r.cumulativeKwh)
      ∧ (records.find? (isTodayRecord today) = none →
          snap.daily_production = lastRec.deliveredKwh
          ∧ snap.cumulative_production = lastRec.cumulativeKwh) := by
  have hc := cumul_client_ok sess (.list records) hauth
  have hnil : records ≠ [] := by
    intro hcon
    rw [hcon] at hlast
    cases hlast
  unfold get_latest_data
  rw [hc]
  refine ⟨_, rfl, ?_, ?_⟩
  · intro r hf
    have hp : isTodayRecord today r = true := List.find?_some hf
    have htr : recordTruthy r = true := recordTruthy_of_isToday today r hne hp
    have hc2 := applyCumulative_daily_some records today
      (minuteStage (get_site_production_minute sess minuteAtt).result emptySnapshot)
      r hnil hf htr
    have hod := offerStage_daily (get_product_offerings sess offerAtt).result
      (cumulStage (.ok (.list records)) today
        (minuteStage (get_site_production_minute sess minuteAtt).result emptySnapshot))
    exact ⟨hp, hod.1.trans hc2.1, hod.2.trans hc2.2⟩
  · intro hf
    have hc2 := applyCumulative_daily_none records today
      (minuteStage (get_site_production_minute sess minuteAtt).result emptySnapshot)
      lastRec hlast hf
    have hod := offerStage_daily (get_product_offerings sess offerAtt).result
      (cumulStage (.ok (.list records)) today
        (minuteStage (get_site_production_minute sess minuteAtt).result emptySnapshot))
    exact ⟨hod.1.trans hc2.1, hod.2.trans hc2.2⟩

theorem get_latest_data_daily_selection_witness :
    ∃ snap,
      get_latest_data ⟨some "tok", some "pid"⟩ "2025-01-02" (.netError "down")
          (.response 200 (.list [sampleDay2, sampleDay1]))
          (.netError "down") = .ok snap
      ∧ (∀ r, [sampleDay2, sampleDay1].find? (isTodayRecord "2025-01-02") = some r →
          isTodayRecord "2025-01-02" r = true
          ∧ snap.daily_production = r.deliveredKwh
          ∧ snap.cumulative_production = r.cumulativeKwh)
      ∧ ([sampleDay2, sampleDay1].find? (isTodayRecord "2025-01-02") = none →
          snap.daily_production = sampleDay1.deliveredKwh
          ∧ snap.cumulative_production = sampleDay1.cumulativeKwh) :=
  get_latest_data_daily_selection ⟨some "tok", some "pid"⟩ "2025-01-02"
    (.netError "down") (.netError "down") [sampleDay2, sampleDay1] sampleDay1
    (by decide) (by decide) (by decide)

/-- C3: on a successful minute fetch with a non-empty list, the unit
heuristic is applied independently per field of the last telemetry
point: a reading strictly below 100 is multiplied by 1000, a reading at
or above 100 passes through unchanged; each of the four secondary
fields is converted only when present (absent stays null, a present
zero is converted as zero, i.e. falls under the `< 100` branch). -/
theorem get_latest_data_unit_heuristic
    (sess : Session) (today : String) (body : MinuteBody)
    (cumulAtt : HttpAttempt CumulBody) (offerAtt : HttpAttempt (Option Offerings))
    (p : TelemetryPoint)
    (hauth : authOk sess = true)
    (hlast : (normalizeMinuteBody body).getLast? = some p) :
    ∃ snap,
      get_latest_data sess today (.response 200 body) cumulAtt offerAtt = .ok snap
      ∧ (solarValue p < 100 → snap.current_power = some (solarValue p * 1000))
      ∧ (100 ≤ solarValue p → snap.current_power = some (solarValue p))
      ∧ (p.consumption = none → snap.consumption = none)
      ∧ (∀ v, p.consumption = some v → v < 100 → snap.consumption = some (v * 1000))
      ∧ (∀ v, p.consumption = some v → 100 ≤ v → snap.consumption = some v)
      ∧ (p.exportReading = none → snap.grid_export = none)
      ∧ (∀ v, p.exportReading = some v → v < 100 → snap.grid_export = some (v * 1000))
      ∧ (∀ v, p.exportReading = some v → 100 ≤ v → snap.grid_export = some v)
      ∧ (p.importReading = none → snap.grid_import = none)
      ∧ (∀ v, p.importReading = some v → v < 100 → snap.grid_import = some (v * 1000))
      ∧ (∀ v, p.importReading = some v → 100 ≤ v → snap.grid_import = some v)
      ∧ (p.batterySolar = none → snap.battery_solar = none)
      ∧ (∀ v, p.batterySolar = some v → v < 100 → snap.battery_solar = some (v * 1000))
      ∧ (∀ v, p.batterySolar = some v → 100 ≤ v → snap.battery_solar = some v) := by
  have hm := minute_client_ok sess body hauth
  unfold get_latest_data
  rw [hm]
  have hagg := aggregate_minute_ok (normalizeMinuteBody body) p
    (get_cumulative_production sess cumulAtt).result
    (get_product_offerings sess offerAtt).result today hlast
  refine ⟨_, rfl, ?_, ?_, ?_, ?_, ?_, ?_, ?_, ?_, ?_, ?_, ?_, ?_, ?_, ?_⟩
  · intro hv
    rw [hagg.1]
    unfold convertPower
    rw [if_pos hv]
  · intro hv
    rw [hagg.1]
    unfold convertPower
    rw [if_neg (not_lt.mpr hv)]
  · intro hn
    rw [hagg.2.1, hn]
    rfl
  · intro v hv hlt
    rw [hagg.2.1, hv]
    simp [convertPower, hlt]
  · intro v hv hge
    rw [hagg.2.1, hv]
    simp [convertPower, not_lt.mpr hge]
  · intro hn
    rw [hagg.2.2.1, hn]
    rfl
  · intro v hv hlt
    rw [hagg.2.2.1, hv]
    simp [convertPower, hlt]
  · intro v hv hge
    rw [hagg.2.2.1, hv]
    simp [convertPower, not_lt.mpr hge]
  · intro hn
    rw [hagg.2.2.2.1, hn]
    rfl
  · intro v hv hlt
    rw [hagg.2.2.2.1, hv]
    simp [convertPower, hlt]
  · intro v hv hge
    rw [hagg.2.2.2.1, hv]
    simp [convertPower, not_lt.mpr hge]
  · intro hn
    rw [hagg.2.2.2.2.1, hn]
    rfl
  · intro v hv hlt
    rw [hagg.2.2.2.2.1, hv]
    simp [convertPower, hlt]
  · intro v hv hge
    rw [hagg.2.2.2.2.1, hv]
    simp [convertPower, not_lt.mpr hge]

theorem get_latest_data_unit_heuristic_witness :
    ∃ snap,
      get_latest_data ⟨some "tok", some "pid"⟩ "2025-01-02"
          (.response 200 (.list [samplePoint])) (.netError "down") (.netError "down")
        = .ok snap
      ∧ (solarValue samplePoint < 100 →
          snap.current_power = some (solarValue samplePoint * 1000))
      ∧ (100 ≤ solarValue samplePoint →
          snap.current_power = some (solarValue samplePoint))
      ∧ (samplePoint.consumption = none → snap.consumption = none)
      ∧ (∀ v, samplePoint.consumption = some v → v < 100 →
          snap.consumption = some (v * 1000))
      ∧ (∀ v, samplePoint.consumption = some v → 100 ≤ v → snap.consumption = some v)
      ∧ (samplePoint.exportReading = none → snap.grid_export = none)
      ∧ (∀ v, samplePoint.exportReading = some v → v < 100 →
          snap.grid_export = some (v * 1000))
      ∧ (∀ v, samplePoint.exportReading = some v → 100 ≤ v → snap.grid_export = some v)
      ∧ (samplePoint.importReading = none → snap.grid_import = none)
      ∧ (∀ v, samplePoint.importReading = some v → v < 100 →
          snap.grid_import = some (v * 1000))
      ∧ (∀ v, samplePoint.importReading = some v → 100 ≤ v → snap.grid_import = some v)
      ∧ (samplePoint.batterySolar = none → snap.battery_solar = none)
      ∧ (∀ v, samplePoint.batterySolar = some v → v < 100 →
          snap.battery_solar = some (v * 1000))
      ∧ (∀ v, samplePoint.batterySolar = some v → 100 ≤ v →
          snap.battery_solar = some v) :=
  get_latest_data_unit_heuristic ⟨some "tok", some "pid"⟩ "2025-01-02"
    (.list [samplePoint]) (.netError "down") (.netError "down") samplePoint
    (by decide) (by decide)

/-- C10: whenever the minute list is non-empty, `current_power` is never
null; a present-but-zero `solar` reading is falsy in Python's `or`
chain, so it falls back to `pvSolar` and then to the literal `0` —
"missing" and "zero" are conflated for the primary solar field, unlike
the four secondary fields. -/
theorem get_latest_data_solar_zero_fallback
    (sess : Session) (today : String) (body : MinuteBody)
    (cumulAtt : HttpAttempt CumulBody) (offerAtt : HttpAttempt (Option Offerings))
    (p : TelemetryPoint)
    (hauth : authOk sess = true)
    (hlast : (normalizeMinuteBody body).getLast? = some p) :
    ∃ snap,
      get_latest_data sess today (.response 200 body) cumulAtt offerAtt = .ok snap
      ∧ snap.current_power.isSome = true
      ∧ (∀ w, p.solar = some 0 → p.pvSolar = some w → w ≠ 0 →
          snap.current_power = some (convertPower w))
      ∧ (p.solar = some 0 → p.pvSolar = none → snap.current_power = some 0)
      ∧ (p.solar = none → p.pvSolar = none → snap.current_power = some 0) := by
  have hm := minute_client_ok sess body hauth
  unfold get_latest_data
  rw [hm]
  have hagg := aggregate_minute_ok (normalizeMinuteBody body) p
    (get_cumulative_production sess cumulAtt).result
    (get_product_offerings sess offerAtt).result today hlast
  refine ⟨_, rfl, ?_, ?_, ?_, ?_⟩
  · rw [hagg.1]
    rfl
  · intro w hs hp hw
    have hsv : solarValue p = w := by
      simp [solarValue, pyOrNum, hs, hp, hw]
    rw [hagg.1, hsv]
  · intro hs hp
    have hsv : solarValue p = 0 := by
      simp [solarValue, pyOrNum, hs, hp]
    rw [hagg.1, hsv]
    norm_num [convertPower]
  · intro hs hp
    have hsv : solarValue p = 0 := by
      simp [solarValue, pyOrNum, hs, hp]
    rw [hagg.1, hsv]
    norm_num [convertPower]

theorem get_latest_data_solar_zero_fallback_witness :
    ∃ snap,
      get_latest_data ⟨some "tok", some "pid"⟩ "2025-01-02"
          (.response 200 (.list [samplePointZeroSolar]))
          (.netError "down") (.netError "down") = .ok snap
      ∧ snap.current_power.isSome = true
      ∧ (∀ w, samplePointZeroSolar.solar = some 0 →
          samplePointZeroSolar.pvSolar = some w → w ≠ 0 →
          snap.current_power = some (convertPower w))
      ∧ (samplePointZeroSolar.solar = some 0 → samplePointZeroSolar.pvSolar = none →
          snap.current_power = some 0)
      ∧ (samplePointZeroSolar.solar = none → samplePointZeroSolar.pvSolar = none →
          snap.current_power = some 0) :=
  get_latest_data_solar_zero_fallback ⟨some "tok", some "pid"⟩ "2025-01-02"
    (.list [samplePointZeroSolar]) (.netError "down") (.netError "down")
    samplePointZeroSolar (by decide) (by decide)

/-- C5 counterexample: an HTTP-200 challenge response whose exchange
token is present only at the nested `data.token` location.  The claim
says `request_otp` extracts it, stores it and reports success; the code
probes only the top-level `token` key, stores `None` and reports
failure. -/
theorem request_otp_ignores_nested_token :
    request_otp ⟨none⟩ (.response 200 { dataToken := some "EXCH" })
      = (⟨none⟩, .ok false) := by
  decide

/-- C5 amended: `request_otp` probes only the top-level `token` key of
an HTTP-200 challenge response.  When that key holds a truthy token it
is stored as the pending exchange token and success is reported; when
the top-level key is absent the call reports failure regardless of any
token nested under `data`. -/
theorem request_otp_top_level_token_only (st : OtpState) (body : OtpResponseBody) :
    (∀ t, body.token = some t → t ≠ "" →
        request_otp st (.response 200 body) = (⟨some t⟩, .ok true))
    ∧ (body.token = none →
        request_otp st (.response 200 body) = (⟨none⟩, .ok false)) := by
  constructor
  · intro t ht hne
    unfold request_otp
    simp [ht, pyTruthyStr, hne]
  · intro ht
    unfold request_otp
    simp [ht, pyTruthyStr]

theorem request_otp_top_level_token_only_witness :
    request_otp ⟨none⟩ (.response 200 { token := some "EXCH", dataToken := some "OTHER" })
      = (⟨some "EXCH"⟩, .ok true) :=
  (request_otp_top_level_token_only ⟨none⟩
    { token := some "EXCH", dataToken := some "OTHER" }).1 "EXCH" rfl (by decide)

/-- C6 counterexample: an HTTP-200 challenge response with no token at
the probed location.  The claim says `request_otp` raises an AuthError;
the code instead returns `False` (a non-error result) and wipes the
pending exchange token. -/
theorem request_otp_missing_token_no_raise :
    request_otp ⟨some "prev"⟩ (.response 200 {}) = (⟨none⟩, .ok false) := by
  decide

/-- C6 amended: a non-200 challenge response makes `request_otp` raise
an AuthError, leaving the stored exchange token unchanged; an HTTP-200
response with no truthy token at the probed top-level location makes it
return `False` without raising, storing the (falsy) top-level value —
in both cases the session holds no usable exchange token from this
call. -/
theorem request_otp_failure_modes (st : OtpState) (status : Nat) (body : OtpResponseBody) :
    (status ≠ 200 →
        request_otp st (.response status body)
          = (st, .error (.authError ("Failed to request OTP: " ++ toString status))))
    ∧ (status = 200 → pyTruthyStr body.token = false →
        request_otp st (.response status body) = (⟨body.token⟩, .ok false)) := by
  constructor
  · intro hs
    simp only [request_otp]
    rw [if_neg hs]
  · intro hs ht
    subst hs
    simp only [request_otp]
    simp [ht]

theorem request_otp_failure_modes_witness :
    request_otp ⟨some "prev"⟩ (.response 500 {})
        = (⟨some "prev"⟩, .error (.authError ("Failed to request OTP: " ++ toString 500)))
    ∧ request_otp ⟨some "prev"⟩ (.response 200 {}) = (⟨none⟩, .ok false) :=
  ⟨(request_otp_failure_modes ⟨some "prev"⟩ 500 {}).1 (by decide),
   (request_otp_failure_modes ⟨some "prev"⟩ 200 {}).2 rfl (by decide)⟩

/-- C7: `test_connection` performs the cumulative-production fetch and
returns `false` exactly when that fetch raises an AuthError; any other
ApiError and success both yield `true`. -/
theorem test_connection_false_iff_authError (sess : Session) (att : HttpAttempt CumulBody) :
    test_connection sess att
      = !(isAuthErr (get_cumulative_production sess att).result) := by
  unfold test_connection
  cases h : (get_cumulative_production sess att).result with
  | ok v => simp [h, isAuthErr]
  | error e => cases e <;> simp [h, isAuthErr]

/-- C8: each of the three endpoint clients called with an absent access
token or an absent prospect id fails immediately with
AuthError "Not authenticated" and issues no network request
(`networkRequests = 0`). -/
theorem clients_fail_fast_unauthenticated (sess : Session)
    (h : sess.access_token = none ∨ sess.prospect_id = none)
    (cAtt : HttpAttempt CumulBody) (mAtt : HttpAttempt MinuteBody)
    (oAtt : HttpAttempt (Option Offerings)) :
    get_cumulative_production sess cAtt = ⟨0, .error (.authError "Not authenticated")⟩
    ∧ get_site_production_minute sess mAtt = ⟨0, .error (.authError "Not authenticated")⟩
    ∧ get_product_offerings sess oAtt = ⟨0, .error (.authError "Not authenticated")⟩ := by
  have hA : authOk sess = false := by
    rcases h with h | h <;> simp [authOk, pyTruthyStr, h]
  refine ⟨?_, ?_, ?_⟩ <;>
    simp [get_cumulative_production, get_site_production_minute,
      get_product_offerings, hA]

theorem clients_fail_fast_unauthenticated_witness :
    get_cumulative_production ⟨none, some "pid"⟩ (.response 200 .nonList)
        = ⟨0, .error (.authError "Not authenticated")⟩
    ∧ get_site_production_minute ⟨none, some "pid"⟩ (.response 200 (.list []))
        = ⟨0, .error (.authError "Not authenticated")⟩
    ∧ get_product_offerings ⟨none, some "pid"⟩ (.response 200 none)
        = ⟨0, .error (.authError "Not authenticated")⟩ :=
  clients_fail_fast_unauthenticated ⟨none, some "pid"⟩ (Or.inl rfl)
    (.response 200 .nonList) (.response 200 (.list [])) (.response 200 none)

/-- C9: a minute-endpoint 200 response whose body is the bare list `L`
and one whose body wraps `L` under a `data` key normalize to the same
internal list: `get_site_production_minute` returns `L` for both. -/
theorem minute_shapes_roundtrip (sess : Session) (L : List TelemetryPoint)
    (hauth : authOk sess = true) :
    (get_site_production_minute sess (.response 200 (.list L))).result = .ok L
    ∧ (get_site_production_minute sess (.response 200 (.obj (some L)))).result = .ok L :=
  ⟨minute_client_ok sess (.list L) hauth, minute_client_ok sess (.obj (some L)) hauth⟩

theorem minute_shapes_roundtrip_witness :
    (get_site_production_minute ⟨some "tok", some "pid"⟩
        (.response 200 (.list [samplePoint]))).result = .ok [samplePoint]
    ∧ (get_site_production_minute ⟨some "tok", some "pid"⟩
        (.response 200 (.obj (some [samplePoint])))).result = .ok [samplePoint] :=
  minute_shapes_roundtrip ⟨some "tok", some "pid"⟩ [samplePoint] (by decide)
